import Mathlib

/-!
# Invoice Pricing & Payment Reconciliation Engine — verification

Shallow embedding of the booking backend's invoice engine:

* `app/services/price_calculator.py` — `PriceCalculator`
* `app/services/coupon.py` — `CouponServices`
* `app/services/invoice.py` — `InvoiceService`
* `app/utils/easykash.py` — `EasyKash` (webhook signature verification,
  including a faithful executable HMAC-SHA512)

Python `float` money values are modelled as `ℚ`; `datetime` instants are
modelled as `ℚ` timestamps ordered in the usual way; database rows are
modelled as Lean structures and tables as lists of rows; `HTTPException`
raising is modelled with `Except HTTPError`, where the `detail` strings
keep the static prefix of the source's f-strings (the interpolated parts
are log text and carry no control flow); each outbound network call is
modelled by passing the response the remote side would supply, together
with a flag recording whether the call was issued.
-/

deriving instance DecidableEq for Except

namespace Globaldivers

/-- Mirror of FastAPI's `HTTPException` as raised by the services. -/
structure HTTPError where
  status_code : Nat
  detail : String
deriving Repr, DecidableEq

/-- Python truthiness of an optional integer (`None` and `0` are falsy). -/
def optIntTruthy : Option Int → Bool
  | none => false
  | some n => n != 0

/-- Python truthiness of an optional natural (`None` and `0` are falsy). -/
def optNatTruthy : Option Nat → Bool
  | none => false
  | some n => n != 0

/-- Python truthiness of an optional string (`None` and `""` are falsy). -/
def optStrTruthy : Option String → Bool
  | none => false
  | some s => s != ""

/-- Python `str.upper()` (ASCII case mapping, the relevant domain of the
status strings), defined on the character list so that it computes. -/
def strUpper (s : String) : String := ⟨s.data.map Char.toUpper⟩

/-- Python `str.lower()` (ASCII case mapping), defined on the character
list so that it computes. -/
def strLower (s : String) : String := ⟨s.data.map Char.toLower⟩

/-! ## Data model (`app/models/trip.py`, `app/models/course.py`,
`app/models/coupon.py`, `app/models/associations.py`) -/

/-- Row of the `trips` table (the fields the pricing engine reads). -/
structure Trip where
  id : Nat
  name : String
  adult_price : ℚ
  child_price : ℚ
  child_allowed : Bool
  maxim_person : Int
  has_discount : Bool
  discount_requires_min_people : Bool
  discount_always_available : Bool
  discount_min_people : Option Int
  discount_percentage : Option Int
deriving Repr, DecidableEq

/-- Row of the `courses` table (the fields the pricing engine reads). -/
structure Course where
  id : Nat
  name : String
  price : ℚ
  price_available : Bool
  has_discount : Bool
  discount_requires_min_people : Bool
  discount_always_available : Bool
  discount_min_people : Option Int
  discount_percentage : Option Int
deriving Repr, DecidableEq

/-- Row of the `coupons` table. -/
structure Coupon where
  id : Nat
  code : String
  activity : String
  discount_percentage : ℚ
  can_used_up_to : Int
  user_limit : Int
  used_count : Int
  is_active : Bool
  expire_date : Option ℚ
deriving Repr, DecidableEq

/-- Row of the `coupon_user_usage` association table. -/
structure CouponUsage where
  coupon_id : Nat
  user_id : Nat
  usage_count : Int
deriving Repr, DecidableEq

/-! ## `PriceCalculator` (`app/services/price_calculator.py`) -/

/-- `group_discount` sub-dictionary of the discount breakdown. -/
structure GroupDiscountInfo where
  percentage : ℚ
  amount : ℚ
deriving Repr, DecidableEq

/-- `promo_discount` sub-dictionary of the discount breakdown. -/
structure PromoDiscountInfo where
  code : String
  percentage : ℚ
  amount : ℚ
deriving Repr, DecidableEq

/-- The `discount_info` dictionary returned by the price calculators. -/
structure DiscountBreakdown where
  base_price : ℚ
  total_discount : ℚ
  group_discount : Option GroupDiscountInfo
  promo_discount : Option PromoDiscountInfo
  final_price : ℚ
  coupon_code : Option String
deriving Repr, DecidableEq

/-- `datetime.utcnow() > coupon.expire_date` guarded by the truthiness of
`coupon.expire_date` in `PriceCalculator._validate_coupon`. -/
def couponExpired (coupon : Coupon) (now : ℚ) : Bool :=
  match coupon.expire_date with
  | some d => decide (now > d)
  | none => false

/-- `PriceCalculator._validate_coupon`: active flag, global usage cap,
expiry and activity-scope checks, in source order.  The `user_id`
parameter is accepted but never read, exactly as in the source. -/
def validate_coupon (coupon : Coupon) (_user_id : Option Nat)
    (activity_type : String) (now : ℚ) : Except HTTPError Unit :=
  if coupon.is_active = false then
    .error ⟨400, "This coupon code is no longer active"⟩
  else if coupon.can_used_up_to > 0 ∧ coupon.used_count ≥ coupon.can_used_up_to then
    .error ⟨400, "This coupon code has reached its usage limit"⟩
  else if couponExpired coupon now then
    .error ⟨400, "This coupon code has expired"⟩
  else if coupon.activity ≠ "all" ∧ coupon.activity ≠ activity_type then
    .error ⟨400, "This coupon code is not valid for these bookings"⟩
  else
    .ok ()

/-- `PriceCalculator.verify_amount_matches_calculation`. -/
def verify_amount_matches_calculation
    (calculated_amount submitted_amount tolerance : ℚ) : Bool :=
  decide (|calculated_amount - submitted_amount| ≤ tolerance)

/-- Result tuple of the price calculators:
`(final_price, total_discount, discount_info, coupon_obj)`. -/
structure PriceResult where
  final_price : ℚ
  total_discount : ℚ
  discount_info : DiscountBreakdown
  coupon_obj : Option Coupon
deriving Repr, DecidableEq

/-- Group-discount step shared by the trip calculator (steps 4 of
`calculate_trip_price`): returns `(group_discount_amount, group_discount_info)`. -/
def tripGroupDiscount (trip : Trip) (total_participants : Int) (base_price : ℚ) :
    ℚ × Option GroupDiscountInfo :=
  if trip.has_discount then
    let discount_applies :=
      trip.discount_always_available = true ∨
        (trip.discount_requires_min_people = true ∧
          optIntTruthy trip.discount_min_people = true ∧
          total_participants ≥ trip.discount_min_people.getD 0)
    if discount_applies ∧ optIntTruthy trip.discount_percentage = true then
      let pct : Int := trip.discount_percentage.getD 0
      let amount := base_price * (pct : ℚ) / 100
      (amount, some ⟨(pct : ℚ), amount⟩)
    else (0, none)
  else (0, none)

/-- `PriceCalculator.calculate_trip_price`.  The `trips` and `coupons`
lists stand for the queried tables; `now` is the current instant used by
coupon expiry. -/
def calculate_trip_price (trips : List Trip) (coupons : List Coupon) (now : ℚ)
    (trip_id : Nat) (adults : Int) (children : Int)
    (coupon_code : Option String) (user_id : Option Nat) :
    Except HTTPError PriceResult :=
  match trips.find? (fun t => t.id == trip_id) with
  | none => .error ⟨404, "Trip not found"⟩
  | some trip =>
    if adults < 1 then
      .error ⟨400, "At least 1 adult is required for a trip booking"⟩
    else if trip.child_allowed = false ∧ children > 0 then
      .error ⟨400, "Trip does not allow children"⟩
    else
      let total_participants := adults + children
      if total_participants > trip.maxim_person then
        .error ⟨400, "Trip maximum participants exceeded"⟩
      else
        let base_price :=
          (adults : ℚ) * trip.adult_price + (children : ℚ) * trip.child_price
        let gd := tripGroupDiscount trip total_participants base_price
        let group_discount_amount := gd.1
        let promoStep : Except HTTPError (ℚ × Option PromoDiscountInfo × Option Coupon) :=
          if optStrTruthy coupon_code then
            match coupons.find? (fun c => c.code == coupon_code.getD "") with
            | none => .error ⟨404, "Coupon code not found"⟩
            | some coupon_obj =>
              match validate_coupon coupon_obj user_id "trip" now with
              | .error e => .error e
              | .ok _ =>
                let price_after_group_discount := base_price - group_discount_amount
                let promo_discount_amount :=
                  price_after_group_discount * coupon_obj.discount_percentage / 100
                .ok (promo_discount_amount,
                  some ⟨coupon_code.getD "", coupon_obj.discount_percentage,
                    promo_discount_amount⟩,
                  some coupon_obj)
          else .ok (0, none, none)
        match promoStep with
        | .error e => .error e
        | .ok (promo_discount_amount, promo_discount_info, coupon_obj) =>
          let total_discount := group_discount_amount + promo_discount_amount
          let raw_final := base_price - total_discount
          let final_price := if raw_final < 0 then (0 : ℚ) else raw_final
          .ok ⟨final_price, total_discount,
            ⟨base_price, total_discount, gd.2, promo_discount_info,
              final_price, coupon_code⟩,
            coupon_obj⟩

/-- Group-discount step of `calculate_course_price`; for courses the
`discount_requires_min_people` branch unconditionally applies (a noted
placeholder in the source). -/
def courseGroupDiscount (course : Course) (base_price : ℚ) :
    ℚ × Option GroupDiscountInfo :=
  if course.has_discount then
    let discount_applies :=
      course.discount_always_available = true ∨
        (course.discount_requires_min_people = true ∧
          optIntTruthy course.discount_min_people = true)
    if discount_applies ∧ optIntTruthy course.discount_percentage = true then
      let pct : Int := course.discount_percentage.getD 0
      let amount := base_price * (pct : ℚ) / 100
      (amount, some ⟨(pct : ℚ), amount⟩)
    else (0, none)
  else (0, none)

/-- `PriceCalculator.calculate_course_price`. -/
def calculate_course_price (courses : List Course) (coupons : List Coupon)
    (now : ℚ) (course_id : Nat) (coupon_code : Option String)
    (user_id : Option Nat) : Except HTTPError PriceResult :=
  match courses.find? (fun c => c.id == course_id) with
  | none => .error ⟨404, "Course not found"⟩
  | some course =>
    if course.price_available = false then
      .error ⟨400, "Course pricing is not available"⟩
    else
      let base_price := course.price
      let gd := courseGroupDiscount course base_price
      let group_discount_amount := gd.1
      let promoStep : Except HTTPError (ℚ × Option PromoDiscountInfo × Option Coupon) :=
        if optStrTruthy coupon_code then
          match coupons.find? (fun c => c.code == coupon_code.getD "") with
          | none => .error ⟨404, "Coupon code not found"⟩
          | some coupon_obj =>
            match validate_coupon coupon_obj user_id "course" now with
            | .error e => .error e
            | .ok _ =>
              let price_after_group_discount := base_price - group_discount_amount
              let promo_discount_amount :=
                price_after_group_discount * coupon_obj.discount_percentage / 100
              .ok (promo_discount_amount,
                some ⟨coupon_code.getD "", coupon_obj.discount_percentage,
                  promo_discount_amount⟩,
                some coupon_obj)
        else .ok (0, none, none)
      match promoStep with
      | .error e => .error e
      | .ok (promo_discount_amount, promo_discount_info, coupon_obj) =>
        let total_discount := group_discount_amount + promo_discount_amount
        let raw_final := base_price - total_discount
        let final_price := if raw_final < 0 then (0 : ℚ) else raw_final
        .ok ⟨final_price, total_discount,
          ⟨base_price, total_discount, gd.2, promo_discount_info,
            final_price, coupon_code⟩,
          coupon_obj⟩

/-! ## `CouponServices` (`app/services/coupon.py`) -/

/-- The coupon-side state `CouponServices` reads and writes. -/
structure CouponStore where
  coupons : List Coupon
  usage : List CouponUsage
deriving Repr, DecidableEq

/-- `CouponServices.get_coupon_by_code`. -/
def get_coupon_by_code (coupons : List Coupon) (code : String) : Option Coupon :=
  coupons.find? (fun c => c.code == code)

/-- `CouponServices.consume_coupon`: a silent no-op when the code is
unknown; otherwise update or insert the per-(coupon,user) usage row and
increment the coupon's `used_count`. -/
def consume_coupon (store : CouponStore) (coupon_code : String) (user_id : Nat) :
    CouponStore :=
  match get_coupon_by_code store.coupons coupon_code with
  | none => store
  | some coupon =>
    let existing_usage_count : Option Int :=
      (store.usage.find? (fun u =>
        u.coupon_id == coupon.id && u.user_id == user_id)).map (·.usage_count)
    let usage2 :=
      if optIntTruthy existing_usage_count then
        store.usage.map (fun u =>
          if u.coupon_id == coupon.id && u.user_id == user_id then
            { u with usage_count := existing_usage_count.getD 0 + 1 }
          else u)
      else
        store.usage ++ [⟨coupon.id, user_id, 1⟩]
    let coupons2 := store.coupons.map (fun c =>
      if c.id == coupon.id then { c with used_count := c.used_count + 1 } else c)
    ⟨coupons2, usage2⟩

/-! ## HMAC-SHA512 (`hmac.new(key, msg, hashlib.sha512).hexdigest()`)

Executable translation of the keyed hash the webhook verifier computes.
64-bit machine words are `Nat` values reduced `% 2 ^ 64`; byte strings are
`List Nat` of values `< 256`. -/

namespace SHA512

/-- 64-bit truncation. -/
def mask64 (x : Nat) : Nat := x % 2 ^ 64

/-- 64-bit modular addition. -/
def add64 (a b : Nat) : Nat := (a + b) % 2 ^ 64

/-- 64-bit right rotation. -/
def rotr (n x : Nat) : Nat := mask64 ((x >>> n) ||| (x <<< (64 - n)))

/-- 64-bit bitwise complement. -/
def not64 (x : Nat) : Nat := x ^^^ (2 ^ 64 - 1)

/-- SHA-512 `Ch` function. -/
def ch (e f g : Nat) : Nat := (e &&& f) ^^^ (not64 e &&& g)

/-- SHA-512 `Maj` function. -/
def maj (a b c : Nat) : Nat := (a &&& b) ^^^ (a &&& c) ^^^ (b &&& c)

/-- SHA-512 big Σ0. -/
def bigSigma0 (x : Nat) : Nat := rotr 28 x ^^^ rotr 34 x ^^^ rotr 39 x

/-- SHA-512 big Σ1. -/
def bigSigma1 (x : Nat) : Nat := rotr 14 x ^^^ rotr 18 x ^^^ rotr 41 x

/-- SHA-512 small σ0. -/
def smallSigma0 (x : Nat) : Nat := rotr 1 x ^^^ rotr 8 x ^^^ (x >>> 7)

/-- SHA-512 small σ1. -/
def smallSigma1 (x : Nat) : Nat := rotr 19 x ^^^ rotr 61 x ^^^ (x >>> 6)

/-- The 80 SHA-512 round constants. -/
def K : Array Nat := #[
  4794697086780616226, 8158064640168781261, 13096744586834688815, 16840607885511220156,
  4131703408338449720, 6480981068601479193, 10538285296894168987, 12329834152419229976,
  15566598209576043074, 1334009975649890238, 2608012711638119052, 6128411473006802146,
  8268148722764581231, 9286055187155687089, 11230858885718282805, 13951009754708518548,
  16472876342353939154, 17275323862435702243, 1135362057144423861, 2597628984639134821,
  3308224258029322869, 5365058923640841347, 6679025012923562964, 8573033837759648693,
  10970295158949994411, 12119686244451234320, 12683024718118986047, 13788192230050041572,
  14330467153632333762, 15395433587784984357, 489312712824947311, 1452737877330783856,
  2861767655752347644, 3322285676063803686, 5560940570517711597, 5996557281743188959,
  7280758554555802590, 8532644243296465576, 9350256976987008742, 10552545826968843579,
  11727347734174303076, 12113106623233404929, 14000437183269869457, 14369950271660146224,
  15101387698204529176, 15463397548674623760, 17586052441742319658, 1182934255886127544,
  1847814050463011016, 2177327727835720531, 2830643537854262169, 3796741975233480872,
  4115178125766777443, 5681478168544905931, 6601373596472566643, 7507060721942968483,
  8399075790359081724, 8693463985226723168, 9568029438360202098, 10144078919501101548,
  10430055236837252648, 11840083180663258601, 13761210420658862357, 14299343276471374635,
  14566680578165727644, 15097957966210449927, 16922976911328602910, 17689382322260857208,
  500013540394364858, 748580250866718886, 1242879168328830382, 1977374033974150939,
  2944078676154940804, 3659926193048069267, 4368137639120453308, 4836135668995329356,
  5532061633213252278, 6448918945643986474, 6902733635092675308, 7801388544844847127]

/-- The eight-word SHA-512 working state. -/
structure Digest where
  a : Nat
  b : Nat
  c : Nat
  d : Nat
  e : Nat
  f : Nat
  g : Nat
  h : Nat
deriving Repr, DecidableEq

/-- Initial SHA-512 hash value. -/
def H0 : Digest :=
  ⟨7640891576956012808, 13503953896175478587, 4354685564936845355, 11912009170470909681,
   5840696475078001361, 11170449401992604703, 2270897969802886507, 6620516959819538809⟩

/-- Merge big-endian bytes into 64-bit words. -/
def bytesToWords : List Nat → List Nat
  | b0 :: b1 :: b2 :: b3 :: b4 :: b5 :: b6 :: b7 :: rest =>
    (((((((b0 * 256 + b1) * 256 + b2) * 256 + b3) * 256 + b4) * 256 + b5) * 256
        + b6) * 256 + b7) :: bytesToWords rest
  | _ => []

/-- Split a word list into 16-word blocks. -/
def toBlocks : List Nat → List (List Nat)
  | w0 :: w1 :: w2 :: w3 :: w4 :: w5 :: w6 :: w7 :: w8 :: w9 :: w10 :: w11 ::
      w12 :: w13 :: w14 :: w15 :: rest =>
    [w0, w1, w2, w3, w4, w5, w6, w7, w8, w9, w10, w11, w12, w13, w14, w15]
      :: toBlocks rest
  | _ => []

/-- Big-endian 8-byte expansion of a 64-bit word. -/
def wordToBytes (x : Nat) : List Nat :=
  [(x >>> 56) &&& 255, (x >>> 48) &&& 255, (x >>> 40) &&& 255, (x >>> 32) &&& 255,
   (x >>> 24) &&& 255, (x >>> 16) &&& 255, (x >>> 8) &&& 255, x &&& 255]

/-- Big-endian byte expansion of the 128-bit message-length field. -/
def lengthBytes (bitLen : Nat) : List Nat :=
  wordToBytes (bitLen / 2 ^ 64) ++ wordToBytes (bitLen % 2 ^ 64)

/-- SHA-512 padding: a `0x80` byte, zeros to 112 mod 128, and the
128-bit big-endian bit length. -/
def pad (msg : List Nat) : List Nat :=
  let zeros := (112 + 128 - (msg.length + 1) % 128) % 128
  msg ++ [0x80] ++ List.replicate zeros 0 ++ lengthBytes (msg.length * 8)

/-- 80-entry message schedule of one block. -/
def schedule (block : List Nat) : Array Nat :=
  (List.range 64).foldl
    (fun w _ =>
      let t := w.size
      w.push (add64 (add64 (smallSigma1 (w.getD (t - 2) 0)) (w.getD (t - 7) 0))
        (add64 (smallSigma0 (w.getD (t - 15) 0)) (w.getD (t - 16) 0))))
    block.toArray

/-- One SHA-512 compression round. -/
def round (k w : Nat) (s : Digest) : Digest :=
  let t1 := add64 s.h (add64 (bigSigma1 s.e) (add64 (ch s.e s.f s.g) (add64 k w)))
  let t2 := add64 (bigSigma0 s.a) (maj s.a s.b s.c)
  ⟨add64 t1 t2, s.a, s.b, s.c, add64 s.d t1, s.e, s.f, s.g⟩

/-- Compress one 16-word block into the running digest. -/
def compressBlock (H : Digest) (block : List Nat) : Digest :=
  let w := schedule block
  let s := (List.range 80).foldl
    (fun s t => round (K.getD t 0) (w.getD t 0) s) H
  ⟨add64 H.a s.a, add64 H.b s.b, add64 H.c s.c, add64 H.d s.d,
   add64 H.e s.e, add64 H.f s.f, add64 H.g s.g, add64 H.h s.h⟩

/-- SHA-512 digest of a byte string, as eight 64-bit words. -/
def sha512Words (msg : List Nat) : Digest :=
  (toBlocks (bytesToWords (pad msg))).foldl compressBlock H0

/-- SHA-512 digest of a byte string, as 64 bytes. -/
def sha512Bytes (msg : List Nat) : List Nat :=
  let d := sha512Words msg
  wordToBytes d.a ++ wordToBytes d.b ++ wordToBytes d.c ++ wordToBytes d.d ++
    wordToBytes d.e ++ wordToBytes d.f ++ wordToBytes d.g ++ wordToBytes d.h

/-- Lower-case hex digit. -/
def hexChar (n : Nat) : Char :=
  if n < 10 then Char.ofNat (48 + n) else Char.ofNat (87 + n)

/-- Two-digit lower-case hex expansion of one byte. -/
def byteToHex (b : Nat) : List Char := [hexChar (b / 16), hexChar (b % 16)]

/-- Lower-case hex string of a byte string (Python `.hexdigest()`). -/
def bytesToHexString (bs : List Nat) : String :=
  ⟨(bs.map byteToHex).flatten⟩

/-- UTF-8 encoding of one character (Python `str.encode("utf-8")`). -/
def utf8EncodeChar (c : Char) : List Nat :=
  let n := c.toNat
  if n < 0x80 then [n]
  else if n < 0x800 then
    [0xC0 ||| (n >>> 6), 0x80 ||| (n &&& 0x3F)]
  else if n < 0x10000 then
    [0xE0 ||| (n >>> 12), 0x80 ||| ((n >>> 6) &&& 0x3F), 0x80 ||| (n &&& 0x3F)]
  else
    [0xF0 ||| (n >>> 18), 0x80 ||| ((n >>> 12) &&& 0x3F),
     0x80 ||| ((n >>> 6) &&& 0x3F), 0x80 ||| (n &&& 0x3F)]

/-- UTF-8 encoding of a string as a byte list. -/
def utf8Bytes (s : String) : List Nat :=
  (s.data.map utf8EncodeChar).flatten

/-- RFC 2104 HMAC with SHA-512 (block size 128 bytes). -/
def hmacSha512 (key msg : List Nat) : List Nat :=
  let k0 := if key.length > 128 then sha512Bytes key else key
  let k1 := k0 ++ List.replicate (128 - k0.length) 0
  let ipadKey := k1.map (fun b => b ^^^ 0x36)
  let opadKey := k1.map (fun b => b ^^^ 0x5c)
  sha512Bytes (opadKey ++ sha512Bytes (ipadKey ++ msg))

/-- `hmac.new(key.encode("utf-8"), msg.encode("utf-8"), hashlib.sha512).hexdigest()`. -/
def hmacSha512Hex (key msg : String) : String :=
  bytesToHexString (hmacSha512 (utf8Bytes key) (utf8Bytes msg))

end SHA512

/-! ## `EasyKash` webhook verifier (`app/utils/easykash.py`) -/

/-- The webhook body as a keyed dictionary: every field the engine reads,
each optional because the payload is a loosely-typed dict.  The callback
processor reads the key `paymentMethod` (lower-case `p`), a different key
from the `PaymentMethod` the verifier signs, so both appear. -/
structure CallbackPayload where
  ProductCode : Option String
  Amount : Option String
  ProductType : Option String
  PaymentMethod : Option String
  status : Option String
  easykashRef : Option String
  customerReference : Option String
  paymentMethod : Option String
  signatureHash : Option String
deriving Repr, DecidableEq

/-- `hmac.compare_digest` on hex digests: equality of the two strings
(the constant-time aspect has no observable effect on the result). -/
def compareDigest (a b : String) : Bool := a == b

/-- The 7 signed fields of `EasyKash.verify_callback`, each read with
`payload.get(key, "")`, concatenated with no separator in the exact
source order. -/
def concatSignedFields (payload : CallbackPayload) : String :=
  payload.ProductCode.getD "" ++ payload.Amount.getD "" ++
    payload.ProductType.getD "" ++ payload.PaymentMethod.getD "" ++
    payload.status.getD "" ++ payload.easykashRef.getD "" ++
    payload.customerReference.getD ""

/-- `EasyKash.verify_callback`: fail when the secret key is unset or the
`signatureHash` field is missing or falsy; otherwise compare the supplied
signature with the HMAC-SHA512 over the concatenated signed fields, each
missing field defaulted to `""`. -/
def verify_callback (secret_key : String) (payload : CallbackPayload) : Bool :=
  if secret_key = "" then false
  else
    match payload.signatureHash with
    | none => false
    | some received_signature =>
      if received_signature = "" then false
      else
        compareDigest
          (SHA512.hmacSha512Hex secret_key (concatSignedFields payload))
          received_signature

/-! ## `InvoiceService` (`app/services/invoice.py`) -/

/-- One entry of the structured `activity_details` list. -/
structure ActivityDetail where
  name : Option String
  activity_date : Option String
  adults : Option Int
  children : Option Int
  hotel_name : Option String
  room_number : Option String
  special_requests : Option String
deriving Repr, DecidableEq

/-- Row of the `invoices` table (the fields the engine reads and writes). -/
structure Invoice where
  id : Nat
  user_id : Nat
  buyer_name : String
  buyer_email : String
  buyer_phone : String
  invoice_description : String
  activity : String
  activity_details : Option (List ActivityDetail)
  amount : ℚ
  currency : String
  invoice_type : String
  pay_url : Option String
  payment_method : Option String
  status : String
  picked_up : Bool
  customer_reference : Option String
  easykash_reference : Option String
  coupon_code : Option String
  discount_amount : ℚ
  discount_breakdown : Option DiscountBreakdown
deriving Repr, DecidableEq

/-- The statuses `_inquire_and_update_invoice` treats as final
(`FINAL_STATUSES` in the source — note `FAILED` is absent). -/
def FINAL_STATUSES : List String := ["PAID", "EXPIRED", "CANCELLED"]

/-- The statuses `process_payment_callback` accepts from a webhook
(`VALID_CALLBACK_STATUSES` in the source). -/
def VALID_CALLBACK_STATUSES : List String := ["PAID", "FAILED", "CANCELLED", "EXPIRED"]

/-- Body of an `easykash_client.inquire_payment` response: either an
`error`/`details` pair or the gateway's `status` and `easykashReference`. -/
structure InquiryResponse where
  error : Option String
  details : Option String
  status : Option String
  easykashReference : Option String
deriving Repr, DecidableEq

/-- What a call to `_inquire_and_update_invoice` did: the row afterwards,
whether the remote inquiry was issued, and whether a commit rewrote the
row (which is what would advance `updated_at`). -/
structure InquiryOutcome where
  invoice : Invoice
  api_called : Bool
  committed : Bool
deriving Repr, DecidableEq

/-- `InvoiceService._inquire_and_update_invoice`, parameterized by the
response the gateway would return if the inquiry were issued. -/
def inquire_and_update_invoice (invoice : Invoice)
    (inquiry_response : InquiryResponse) : InquiryOutcome :=
  if invoice.status ∈ FINAL_STATUSES ∨ optStrTruthy invoice.customer_reference = false then
    ⟨invoice, false, false⟩
  else if optStrTruthy inquiry_response.error then
    ⟨invoice, true, false⟩
  else
    let easykash_status : Option String :=
      match inquiry_response.status with
      | some s => if s = "" then none else some (strUpper s)
      | none => none
    let step1 : Invoice × Bool :=
      match easykash_status with
      | some s =>
        if s ≠ invoice.status then ({ invoice with status := s }, true)
        else (invoice, false)
      | none => (invoice, false)
    let step2 : Invoice × Bool :=
      if optStrTruthy inquiry_response.easykashReference = true ∧
          inquiry_response.easykashReference ≠ step1.1.easykash_reference then
        ({ step1.1 with easykash_reference := inquiry_response.easykashReference }, true)
      else step1
    ⟨step2.1, true, step2.2⟩

/-- What processing a webhook did: the invoice table afterwards, the
returned response body (`status`/`message` pair; `none` models the
implicit `None` return), whether a commit happened, and whether a
confirmation email was sent (the send is commented out in the source, so
no branch sets it). -/
structure CallbackOutcome where
  invoices : List Invoice
  response : Option (String × String)
  committed : Bool
  email_sent : Bool
deriving Repr, DecidableEq

/-- The invoice lookup of `process_payment_callback`:
`filter(Invoice.customer_reference == payload.get("customerReference")).first()`
(a missing key compares as SQL `IS NULL`). -/
def lookup_invoice_by_reference (invoices : List Invoice) (ref : Option String) :
    Option Invoice :=
  invoices.find? (fun inv => inv.customer_reference == ref)

/-- `InvoiceService.process_payment_callback` (runs after the route has
already verified the signature). -/
def process_payment_callback (invoices : List Invoice)
    (payload : CallbackPayload) : Except HTTPError CallbackOutcome :=
  match lookup_invoice_by_reference invoices payload.customerReference with
  | none => .error ⟨404, "Invoice with customer reference not found."⟩
  | some invoice =>
    if invoice.status = "PAID" then
      .ok ⟨invoices, some ("success", "Invoice already marked as paid."), false, false⟩
    else
      let incoming_status := strUpper (payload.status.getD "")
      if incoming_status ∈ VALID_CALLBACK_STATUSES then
        let updated := { invoice with
          status := incoming_status,
          easykash_reference := payload.easykashRef,
          payment_method := payload.paymentMethod }
        let invoices2 := invoices.map (fun inv =>
          if inv.id == invoice.id then updated else inv)
        if incoming_status = "PAID" then
          .ok ⟨invoices2, some ("success", "Invoice updated to " ++ incoming_status ++ "."),
            true, false⟩
        else
          .ok ⟨invoices2, none, true, false⟩
      else
        .ok ⟨invoices, some ("noop", "Received unhandled status. Invoice not updated."),
          false, false⟩

/-- The request body of invoice creation (`InvoiceCreate` schema). -/
structure InvoiceCreate where
  buyer_name : String
  buyer_email : String
  buyer_phone : String
  invoice_description : String
  activity : String
  activity_details : Option (List ActivityDetail)
  trip_id : Option Nat
  course_id : Option Nat
  adults : Option Int
  children : Option Int
  coupon_code : Option String
  amount : ℚ
  currency : String
  invoice_type : String
deriving Repr, DecidableEq

/-- The dictionary `easykash_client.create_payment` returns. -/
structure EasykashCreateResponse where
  success : Bool
  customer_reference : Option String
  pay_url : Option String
  easykash_reference : Option String
  details : Option String
deriving Repr, DecidableEq

/-- The tables `create_invoice` touches. -/
structure DB where
  trips : List Trip
  courses : List Course
  coupons : List Coupon
  coupon_usage : List CouponUsage
  invoices : List Invoice
deriving Repr, DecidableEq

/-- The `InvoiceCreateResponse` returned to the caller. -/
structure InvoiceCreateResponse where
  id : Nat
  user_id : Nat
  status : String
  customer_reference : Option String
  pay_url : Option String
  invoice_type : String
  discount_breakdown : Option DiscountBreakdown
deriving Repr, DecidableEq

/-- Successful result of `create_invoice`: the database afterwards, the
persisted row, and the response body. -/
structure CreateOutcome where
  db : DB
  new_invoice : Invoice
  response : InvoiceCreateResponse
deriving Repr, DecidableEq

/-- `InvoiceService.create_invoice`, parameterized by the response the
payment gateway would give to `create_payment` (`easykash_response`, used
only on the `online` path), the two `random.randint(1000, 9999)` draws of
the cash reference, the row id the database would assign, and the current
instant.  The telegram notification of step 7 is fire-and-forget and
carries no engine state, so it does not appear in the result. -/
def create_invoice (db : DB) (now : ℚ)
    (easykash_response : EasykashCreateResponse)
    (cash_rand1 cash_rand2 : Nat) (new_invoice_id : Nat)
    (invoice_data : InvoiceCreate) (user_id : Nat) :
    Except HTTPError CreateOutcome :=
  if invoice_data.invoice_type ≠ "online" ∧ invoice_data.invoice_type ≠ "cash" then
    .error ⟨400, "Invoice type must be either online or cash"⟩
  else
    let activity := strLower invoice_data.activity
    let priced : Except HTTPError PriceResult :=
      if activity = "trip" then
        if optNatTruthy invoice_data.trip_id = false then
          .error ⟨400, "trip_id is required when activity type is trip"⟩
        else
          match invoice_data.adults with
          | none => .error ⟨400, "At least 1 adult is required for trip bookings"⟩
          | some adults =>
            if adults < 1 then
              .error ⟨400, "At least 1 adult is required for trip bookings"⟩
            else
              let children := if optIntTruthy invoice_data.children then
                invoice_data.children.getD 0 else 0
              calculate_trip_price db.trips db.coupons now
                (invoice_data.trip_id.getD 0) adults children
                invoice_data.coupon_code (some user_id)
      else if activity = "course" then
        if optNatTruthy invoice_data.course_id = false then
          .error ⟨400, "course_id is required when activity type is course"⟩
        else
          calculate_course_price db.courses db.coupons now
            (invoice_data.course_id.getD 0) invoice_data.coupon_code (some user_id)
      else
        .error ⟨400, "Unsupported activity type. Must be trip or course"⟩
    match priced with
    | .error e => .error e
    | .ok priceResult =>
      let calculated_amount := priceResult.final_price
      if verify_amount_matches_calculation calculated_amount invoice_data.amount 1 = false then
        .error ⟨400, "Amount mismatch detected. Please recalculate your booking."⟩
      else
        let final_amount := calculated_amount
        let paymentStep :
            Except HTTPError (Option String × Option String × Option String) :=
          if invoice_data.invoice_type = "online" then
            if easykash_response.success = false then
              .error ⟨400, "Failed to create payment link"⟩
            else
              .ok (easykash_response.customer_reference, easykash_response.pay_url,
                easykash_response.easykash_reference)
          else
            .ok (some (toString cash_rand1 ++ toString user_id ++ toString cash_rand2),
              none, none)
        match paymentStep with
        | .error e => .error e
        | .ok (customer_reference, pay_url, easykash_reference) =>
          let new_invoice : Invoice := {
            id := new_invoice_id
            user_id := user_id
            buyer_name := invoice_data.buyer_name
            buyer_email := invoice_data.buyer_email
            buyer_phone := invoice_data.buyer_phone
            invoice_description := invoice_data.invoice_description
            activity := invoice_data.activity
            activity_details := invoice_data.activity_details
            amount := final_amount
            currency := invoice_data.currency
            invoice_type := invoice_data.invoice_type
            pay_url := pay_url
            payment_method := none
            status := "PENDING"
            picked_up := false
            customer_reference := customer_reference
            easykash_reference := easykash_reference
            coupon_code := invoice_data.coupon_code
            discount_amount := priceResult.total_discount
            discount_breakdown := some priceResult.discount_info }
          let db2 := { db with invoices := db.invoices ++ [new_invoice] }
          let db3 :=
            if priceResult.coupon_obj.isSome ∧ optStrTruthy invoice_data.coupon_code then
              let store2 := consume_coupon ⟨db2.coupons, db2.coupon_usage⟩
                (invoice_data.coupon_code.getD "") user_id
              { db2 with coupons := store2.coupons, coupon_usage := store2.usage }
            else db2
          .ok ⟨db3, new_invoice,
            ⟨new_invoice.id, new_invoice.user_id, new_invoice.status,
              new_invoice.customer_reference, new_invoice.pay_url,
              new_invoice.invoice_type, some priceResult.discount_info⟩⟩

/-! ## Concrete fixtures for witnesses and counterexamples -/

/-- A pending online trip invoice. -/
def invBase : Invoice :=
  ⟨1, 7, "Jane Doe", "jane@mail.test", "0100000000", "Trip booking", "trip", none,
    100, "EGP", "online", some "payurl", none, "PENDING", false,
    some "55510007777", none, none, 0, none⟩

/-- The same invoice already failed. -/
def invFailed : Invoice := { invBase with status := "FAILED" }

/-- The same invoice already paid. -/
def invPaid : Invoice := { invBase with status := "PAID" }

/-- The same invoice already cancelled. -/
def invCancelled : Invoice := { invBase with status := "CANCELLED" }

/-- A webhook body reporting `PAID` for the fixture invoice. -/
def payloadPaid : CallbackPayload :=
  ⟨some "EDV4471", some "5.00", some "Direct Pay", some "Cash Through Fawry",
    some "PAID", some "291112234", some "55510007777", some "Fawry", none⟩

/-- An inquiry response reporting `PAID`. -/
def inqPaid : InquiryResponse := ⟨none, none, some "PAID", some "291112234"⟩

/-- An inquiry response reporting a status outside the terminal set. -/
def inqRefunded : InquiryResponse := ⟨none, none, some "Refunded", none⟩

/-- A 10%-off coupon valid for trips. -/
def couponFix : Coupon := ⟨1, "SAVE10", "trip", 10, 100, 1, 0, true, none⟩

/-- A trip priced 100 per adult with an always-available 10% group discount. -/
def tripFix : Trip := ⟨1, "Reef Tour", 100, 0, true, 10, true, false, true, none, some 10⟩

/-- The result of pricing the fixture trip with the fixture coupon. -/
def rFix : PriceResult :=
  ⟨81, 19, ⟨100, 19, some ⟨10, 10⟩, some ⟨"SAVE10", 10, 9⟩, 81, some "SAVE10"⟩,
    some couponFix⟩

/-- The promo line of the fixture pricing. -/
def promoFix : PromoDiscountInfo := ⟨"SAVE10", 10, 9⟩

/-- A trip whose group-discount percentage exceeds 100 (the schema does
not bound it). -/
def tripOver : Trip := ⟨2, "Deep Deal", 100, 0, true, 10, true, false, true, none, some 200⟩

/-- A database holding just the fixture trip and coupon. -/
def dbFix : DB := ⟨[tripFix], [], [couponFix], [], []⟩

/-- A gateway response; unused on the cash path. -/
def gwUnused : EasykashCreateResponse := ⟨false, none, none, none, some "down"⟩

/-- A couponless cash booking of the fixture trip (calculated price 90)
submitted with amount 91 — exactly at the ±1.0 tolerance edge. -/
def dataCash : InvoiceCreate :=
  ⟨"Jane Doe", "jane@mail.test", "0100000000", "Two divers", "trip", none,
    some 1, none, some 1, some 1, none, 91, "EGP", "cash"⟩

/-- The row the accepted fixture booking persists. -/
def invCash : Invoice :=
  ⟨9, 7, "Jane Doe", "jane@mail.test", "0100000000", "Two divers", "trip", none,
    90, "EGP", "cash", none, none, "PENDING", false,
    some (toString 1234 ++ toString 7 ++ toString 5678), none, none, 10,
    some ⟨100, 10, some ⟨10, 10⟩, none, 90, none⟩⟩

/-- The full outcome of the accepted fixture booking. -/
def outcomeCash : CreateOutcome :=
  ⟨⟨[tripFix], [], [couponFix], [], [invCash]⟩, invCash,
    ⟨9, 7, "PENDING", some (toString 1234 ++ toString 7 ++ toString 5678), none,
      "cash", some ⟨100, 10, some ⟨10, 10⟩, none, 90, none⟩⟩⟩

/-- The C3 payload: `ProductCode` (a required signing field) is absent,
and the supplied signature is the HMAC the gateway would compute with
that field defaulted to the empty string. -/
def payloadMissingPC : CallbackPayload :=
  ⟨none, some "5.00", some "Direct Pay", some "Cash Through Fawry", some "PAID",
    some "291112234", some "55510007777", none,
    some (SHA512.hmacSha512Hex "testsecret"
      ("" ++ "5.00" ++ "Direct Pay" ++ "Cash Through Fawry" ++ "PAID" ++
        "291112234" ++ "55510007777"))⟩

/-! ## Shared lemmas about the state machine -/

/-- The early skip of `_inquire_and_update_invoice`: statuses the helper
treats as final, or a falsy customer reference, return the row untouched
without any remote call. -/
theorem inquire_skip (invoice : Invoice) (resp : InquiryResponse)
    (h : invoice.status ∈ FINAL_STATUSES ∨
      optStrTruthy invoice.customer_reference = false) :
    inquire_and_update_invoice invoice resp = ⟨invoice, false, false⟩ := by
  unfold inquire_and_update_invoice
  rw [if_pos h]

/-- The idempotency guard of `process_payment_callback`: an invoice
already `PAID` produces the no-op success response with no write. -/
theorem processCallback_already_paid (invoices : List Invoice)
    (payload : CallbackPayload) (invoice : Invoice)
    (hfound : lookup_invoice_by_reference invoices payload.customerReference = some invoice)
    (hpaid : invoice.status = "PAID") :
    process_payment_callback invoices payload =
      .ok ⟨invoices, some ("success", "Invoice already marked as paid."), false, false⟩ := by
  unfold process_payment_callback
  rw [hfound]
  simp [hpaid]

/-! ## C10 -/

/-- C10: `consume_coupon` with a code absent from the store returns
silently — no error, no usage row created, no `used_count` changed: the
store is returned unmodified. -/
theorem C10_consume_unknown_code_noop (store : CouponStore) (coupon_code : String)
    (user_id : Nat) (h : get_coupon_by_code store.coupons coupon_code = none) :
    consume_coupon store coupon_code user_id = store := by
  unfold consume_coupon
  rw [h]

/-- C10 witness: consuming a code that is not in the fixture store leaves
the store untouched. -/
theorem C10_witness :
    get_coupon_by_code (CouponStore.mk [couponFix] []).coupons "NOSUCH" = none ∧
    consume_coupon ⟨[couponFix], []⟩ "NOSUCH" 7 = ⟨[couponFix], []⟩ :=
  ⟨by decide, C10_consume_unknown_code_noop ⟨[couponFix], []⟩ "NOSUCH" 7 (by decide)⟩

/-! ## C8 -/

/-- C8 counterexample: a coupon with `can_used_up_to = 0` and
`used_count = 0` (so `used_count == can_used_up_to`) that is active,
unexpired and scoped to `"all"` PASSES validation, contradicting the
claim that validation rejects every coupon with
`used_count = can_used_up_to`, including the `can_used_up_to = 0` case. -/
theorem C8_counterexample :
    (Coupon.mk 1 "FREEBIE" "all" 10 0 1 0 true none).used_count =
      (Coupon.mk 1 "FREEBIE" "all" 10 0 1 0 true none).can_used_up_to ∧
    validate_coupon ⟨1, "FREEBIE", "all", 10, 0, 1, 0, true, none⟩ none "trip" 0 =
      .ok () := by
  exact ⟨rfl, by decide⟩

/-- C8 (amended): validation rejects with a 400 whenever the cap is
positive and `used_count ≥ can_used_up_to`, regardless of expiry and
activity scope; but a cap of `0` disables the usage-cap check entirely,
so an active, unexpired, in-scope coupon with `can_used_up_to = 0`
passes validation. -/
theorem C8_cap_check (coupon : Coupon) (uid : Option Nat) (act : String) (now : ℚ)
    (hcap : 0 < coupon.can_used_up_to)
    (hused : coupon.used_count ≥ coupon.can_used_up_to) :
    (∃ e, validate_coupon coupon uid act now = .error e ∧ e.status_code = 400) ∧
    (∀ c : Coupon, ∀ uid2 act2 now2, c.can_used_up_to = 0 → c.is_active = true →
      couponExpired c now2 = false → c.activity = "all" →
      validate_coupon c uid2 act2 now2 = .ok ()) := by
  constructor
  · unfold validate_coupon
    by_cases hact : coupon.is_active = false
    · exact ⟨⟨400, "This coupon code is no longer active"⟩, by rw [if_pos hact], rfl⟩
    · exact ⟨⟨400, "This coupon code has reached its usage limit"⟩,
        by rw [if_neg hact, if_pos ⟨hcap, hused⟩], rfl⟩
  · intro c uid2 act2 now2 hcap0 hact hexp hall
    unfold validate_coupon
    rw [if_neg (by simp [hact]), if_neg (by simp [hcap0]), if_neg (by simp [hexp]),
      if_neg (by simp [hall])]

/-- C8 witness: an exhausted coupon (cap 3, used 3) that is expired and
scoped to courses is still rejected with a 400. -/
theorem C8_witness :
    (∃ e, validate_coupon ⟨1, "OLD", "course", 10, 3, 1, 3, true, some 0⟩
        none "trip" 5 = .error e ∧ e.status_code = 400) ∧
    (∀ c : Coupon, ∀ uid2 act2 now2, c.can_used_up_to = 0 → c.is_active = true →
      couponExpired c now2 = false → c.activity = "all" →
      validate_coupon c uid2 act2 now2 = .ok ()) :=
  C8_cap_check ⟨1, "OLD", "course", 10, 3, 1, 3, true, some 0⟩ none "trip" 5
    (by decide) (by decide)

/-! ## C2 -/

/-- C2 counterexample: a `FAILED` invoice with a customer reference DOES
trigger the remote inquiry call, contradicting the claim that the call
is skipped for all four terminal statuses (`FAILED` is missing from the
source's `FINAL_STATUSES`). -/
theorem C2_counterexample :
    invFailed.status = "FAILED" ∧
    optStrTruthy invFailed.customer_reference = true ∧
    (inquire_and_update_invoice invFailed inqPaid).api_called = true := by
  decide

/-- C2 (amended): the on-demand reconciliation read issues no inquiry
call when the stored status is `PAID`, `EXPIRED` or `CANCELLED`, or when
the invoice has no (truthy) customer reference; a `FAILED` invoice with a
customer reference is still inquired. -/
theorem C2_inquiry_skipped (invoice : Invoice) (resp : InquiryResponse)
    (h : invoice.status ∈ FINAL_STATUSES ∨
      optStrTruthy invoice.customer_reference = false) :
    (inquire_and_update_invoice invoice resp).api_called = false := by
  rw [inquire_skip invoice resp h]

/-- C2 witness: a cancelled invoice is not inquired. -/
theorem C2_witness :
    (inquire_and_update_invoice invCancelled inqPaid).api_called = false :=
  C2_inquiry_skipped invCancelled inqPaid (by decide)

/-! ## C6 -/

/-- C6: replaying a webhook for an invoice already `PAID` returns the
success-shaped no-op response, leaves the invoice table unchanged, does
not commit (so `updated_at`, `status`, `easykash_reference` and
`payment_method` are untouched) and sends no confirmation notification. -/
theorem C6_replayed_paid_webhook_noop (invoices : List Invoice)
    (payload : CallbackPayload) (invoice : Invoice)
    (hfound : lookup_invoice_by_reference invoices payload.customerReference = some invoice)
    (hpaid : invoice.status = "PAID") :
    process_payment_callback invoices payload =
      .ok ⟨invoices, some ("success", "Invoice already marked as paid."), false, false⟩ :=
  processCallback_already_paid invoices payload invoice hfound hpaid

/-- C6 witness: a replayed `PAID` webhook for the paid fixture invoice is
a committed-nothing no-op success. -/
theorem C6_witness :
    process_payment_callback [invPaid] payloadPaid =
      .ok ⟨[invPaid], some ("success", "Invoice already marked as paid."), false, false⟩ :=
  C6_replayed_paid_webhook_noop [invPaid] payloadPaid invPaid (by decide) (by decide)

/-! ## C1 -/

/-- C1 counterexample: a `FAILED` invoice — a terminal status under the
claim — receives a `PAID` webhook and its stored status changes to
`PAID`, so a terminal state does have an outgoing transition and
`PENDING` is not the only state from which webhook processing applies an
update. -/
theorem C1_counterexample :
    invFailed.status = "FAILED" ∧
    (process_payment_callback [invFailed] payloadPaid).map
      (fun o => o.invoices.map Invoice.status) = .ok ["PAID"] := by
  decide

/-- C1 (amended): the only statuses actually shielded from updates are
`PAID` for webhook processing and `{PAID, EXPIRED, CANCELLED}` for
inquiry-driven reconciliation; a `FAILED` invoice can still be updated
by either path. -/
theorem C1_partial_terminal_guard :
    (∀ (invoices : List Invoice) (payload : CallbackPayload) (invoice : Invoice),
      lookup_invoice_by_reference invoices payload.customerReference = some invoice →
      invoice.status = "PAID" →
      ∃ r, process_payment_callback invoices payload = .ok r ∧
        r.invoices = invoices ∧ r.committed = false) ∧
    (∀ (invoice : Invoice) (resp : InquiryResponse),
      invoice.status ∈ FINAL_STATUSES →
      inquire_and_update_invoice invoice resp = ⟨invoice, false, false⟩) := by
  constructor
  · intro invoices payload invoice hfound hpaid
    exact ⟨_, processCallback_already_paid invoices payload invoice hfound hpaid,
      rfl, rfl⟩
  · intro invoice resp h
    exact inquire_skip invoice resp (Or.inl h)

/-- C1 witness: a replayed webhook on a paid invoice rewrites nothing,
and an expired invoice is never touched by reconciliation. -/
theorem C1_witness :
    (∃ r, process_payment_callback [invPaid] payloadPaid = .ok r ∧
      r.invoices = [invPaid] ∧ r.committed = false) ∧
    inquire_and_update_invoice { invBase with status := "EXPIRED" } inqPaid =
      ⟨{ invBase with status := "EXPIRED" }, false, false⟩ :=
  ⟨C1_partial_terminal_guard.1 [invPaid] payloadPaid invPaid (by decide) (by decide),
    C1_partial_terminal_guard.2 { invBase with status := "EXPIRED" } inqPaid (by decide)⟩

/-! ## Decomposition of successful trip pricing (shared by C4 and C7) -/

/-- The group-discount amount recorded in the breakdown equals the amount
actually subtracted. -/
theorem tripGroupDiscount_map_amount (t : Trip) (n : Int) (b : ℚ) :
    (((tripGroupDiscount t n b).2).map GroupDiscountInfo.amount).getD 0 =
      (tripGroupDiscount t n b).1 := by
  unfold tripGroupDiscount
  split
  · simp only []
    split <;> simp
  · simp

/-- Anatomy of every successful `calculate_trip_price` run: the found
trip, the participant guard, and the exact arithmetic of the base price,
group discount, optional promo discount and final price. -/
theorem calculate_trip_price_ok (trips : List Trip) (coupons : List Coupon)
    (now : ℚ) (tid : Nat) (adults children : Int) (code : Option String)
    (uid : Option Nat) (r : PriceResult)
    (h : calculate_trip_price trips coupons now tid adults children code uid = .ok r) :
    ∃ trip, trips.find? (fun t => t.id == tid) = some trip ∧ 1 ≤ adults ∧
      (let base := (adults : ℚ) * trip.adult_price + (children : ℚ) * trip.child_price
      let gd := tripGroupDiscount trip (adults + children) base
      r.discount_info.base_price = base ∧
      r.discount_info.group_discount = gd.2 ∧
      ((∃ c, coupons.find? (fun x => x.code == code.getD "") = some c ∧
          validate_coupon c uid "trip" now = .ok () ∧
          r.coupon_obj = some c ∧
          r.discount_info.promo_discount = some ⟨code.getD "", c.discount_percentage,
            (base - gd.1) * c.discount_percentage / 100⟩ ∧
          r.total_discount = gd.1 + (base - gd.1) * c.discount_percentage / 100) ∨
        (r.discount_info.promo_discount = none ∧ r.coupon_obj = none ∧
          r.total_discount = gd.1)) ∧
      r.final_price = (if base - r.total_discount < 0 then 0
        else base - r.total_discount) ∧
      r.discount_info.final_price = r.final_price ∧
      r.discount_info.total_discount = r.total_discount) := by
  unfold calculate_trip_price at h
  split at h
  · exact absurd h (by simp)
  · rename_i trip hfind
    split at h
    · exact absurd h (by simp)
    · rename_i hadults
      split at h
      · exact absurd h (by simp)
      · simp only [] at h
        split at h
        · exact absurd h (by simp)
        · refine ⟨trip, hfind, by omega, ?_⟩
          split at h
          · exact absurd h (by simp)
          · rename_i promo_amt promo_info coupon_obj heq
            rw [Except.ok.injEq] at h
            subst h
            simp only []
            refine ⟨trivial, trivial, ?_, trivial, trivial, trivial⟩
            split at heq
            · split at heq
              · exact absurd heq (by simp)
              · rename_i c hcfind
                split at heq
                · exact absurd heq (by simp)
                · rename_i u hval
                  rw [Except.ok.injEq, Prod.mk.injEq, Prod.mk.injEq] at heq
                  obtain ⟨h1, h2, h3⟩ := heq
                  subst h1; subst h2; subst h3
                  exact Or.inl ⟨c, hcfind, by rw [hval], rfl, rfl, rfl⟩
            · rw [Except.ok.injEq, Prod.mk.injEq, Prod.mk.injEq] at heq
              obtain ⟨h1, h2, h3⟩ := heq
              subst h1; subst h2; subst h3
              exact Or.inr ⟨rfl, rfl, by simp⟩

/-! ## C4 -/

/-- C4: in every successful trip pricing, the promo discount recorded in
the breakdown is computed on the remainder after the group discount —
`promo_amount = (base_price − group_discount_amount) × promo_pct / 100` —
and in particular a 10% group discount followed by a 10% promo discount
on a base of 100 yields a final price of 81, not 80. -/
theorem C4_promo_on_remainder :
    (∀ (trips : List Trip) (coupons : List Coupon) (now : ℚ) (tid : Nat)
      (adults children : Int) (code : Option String) (uid : Option Nat)
      (r : PriceResult) (p : PromoDiscountInfo),
      calculate_trip_price trips coupons now tid adults children code uid = .ok r →
      r.discount_info.promo_discount = some p →
      p.amount = (r.discount_info.base_price -
        ((r.discount_info.group_discount).map GroupDiscountInfo.amount).getD 0) *
        p.percentage / 100) ∧
    (calculate_trip_price [tripFix] [couponFix] 0 1 1 0 (some "SAVE10") none).map
      (fun r => (r.discount_info.base_price, r.final_price)) = .ok (100, 81) := by
  constructor
  · intro trips coupons now tid adults children code uid r p hok hp
    obtain ⟨trip, hfind, hadult, hrest⟩ :=
      calculate_trip_price_ok trips coupons now tid adults children code uid r hok
    simp only [] at hrest
    obtain ⟨h1, h2, h3, h4, h5, h6⟩ := hrest
    rcases h3 with ⟨c, hcfind, hval, hobj, hpromo, htd⟩ | ⟨hnone, _, _⟩
    · rw [hp, Option.some.injEq] at hpromo
      subst hpromo
      rw [h1, h2, tripGroupDiscount_map_amount]
    · rw [hp] at hnone
      exact absurd hnone (by simp)
  · norm_num [calculate_trip_price, tripFix, couponFix, tripGroupDiscount,
      validate_coupon, couponExpired, optIntTruthy, optStrTruthy, List.find?]
    rw [if_neg (by decide : ¬("SAVE10" = ""))]
    norm_num
    rfl

/-- C4 witness: on the fixture booking, the recorded promo amount 9 is
10% of the 90 remaining after the group discount. -/
theorem C4_witness :
    promoFix.amount = (rFix.discount_info.base_price -
      ((rFix.discount_info.group_discount).map GroupDiscountInfo.amount).getD 0) *
      promoFix.percentage / 100 :=
  C4_promo_on_remainder.1 [tripFix] [couponFix] 0 1 1 0 (some "SAVE10") none
    rFix promoFix
    (by
      norm_num [calculate_trip_price, tripFix, couponFix, rFix, tripGroupDiscount,
        validate_coupon, couponExpired, optIntTruthy, optStrTruthy, List.find?]
      rw [if_neg (by decide : ¬("SAVE10" = ""))]
      norm_num)
    rfl

/-! ## C7 -/

/-- C7 counterexample: a valid booking (1 adult, valid 10% coupon) on a
trip with a 200% group discount prices to final 0 with total discount
190, so the returned total discount does not equal
`base_price − final_price` (190 ≠ 100 − 0). -/
theorem C7_counterexample :
    (calculate_trip_price [tripOver] [couponFix] 0 2 1 0 (some "SAVE10") none).map
      (fun r => (r.discount_info.base_price, r.final_price, r.total_discount)) =
      .ok (100, 0, 190) ∧
    ¬ ((190 : ℚ) = 100 - 0) := by
  constructor
  · norm_num [calculate_trip_price, tripOver, couponFix, tripGroupDiscount,
      validate_coupon, couponExpired, optIntTruthy, optStrTruthy, List.find?]
    rw [if_neg (by decide : ¬("SAVE10" = ""))]
    norm_num
    rfl
  · norm_num

/-- Bounds on the trip group discount when the percentage, if any, lies
in [0, 100] and the base is nonnegative. -/
theorem tripGroupDiscount_bounds (t : Trip) (n : Int) (b : ℚ) (hb : 0 ≤ b)
    (hw : ∀ pct, t.discount_percentage = some pct → 0 ≤ pct ∧ pct ≤ 100) :
    0 ≤ (tripGroupDiscount t n b).1 ∧ (tripGroupDiscount t n b).1 ≤ b := by
  unfold tripGroupDiscount
  split
  · simp only []
    split
    · rename_i hcond
      obtain ⟨happ, htr⟩ := hcond
      rcases hdp : t.discount_percentage with _ | pct
      · simp [hdp, optIntTruthy] at htr
      · obtain ⟨h0, h100⟩ := hw pct hdp
        simp only [Option.getD_some]
        constructor
        · apply div_nonneg _ (by norm_num)
          exact mul_nonneg hb (by exact_mod_cast h0)
        · rw [div_le_iff₀ (by norm_num : (0 : ℚ) < 100)]
          have : (pct : ℚ) ≤ 100 := by exact_mod_cast h100
          nlinarith
    · simp [hb]
  · simp [hb]

/-- C7 (amended): for every valid trip booking — at least 1 adult, a
nonnegative child count, child policy and capacity respected, coupon (if
any) valid with percentage in (0, 100] — on a trip whose prices are
nonnegative and whose group-discount percentage (if present) lies in
[0, 100], the final price satisfies `0 ≤ final ≤ base` and the returned
total discount equals `base − final`.  (Without the bracketed trip-side
sanity bounds, which the schema does not enforce, the equality fails.) -/
theorem C7_price_bounds (trips : List Trip) (coupons : List Coupon)
    (now : ℚ) (tid : Nat) (adults children : Int) (code : Option String)
    (uid : Option Nat) (r : PriceResult)
    (htrips : ∀ t ∈ trips, 0 ≤ t.adult_price ∧ 0 ≤ t.child_price ∧
      ∀ pct, t.discount_percentage = some pct → 0 ≤ pct ∧ pct ≤ 100)
    (hcoupons : ∀ c ∈ coupons, 0 < c.discount_percentage ∧ c.discount_percentage ≤ 100)
    (hchildren : 0 ≤ children)
    (hok : calculate_trip_price trips coupons now tid adults children code uid = .ok r) :
    0 ≤ r.final_price ∧ r.final_price ≤ r.discount_info.base_price ∧
      r.total_discount = r.discount_info.base_price - r.final_price := by
  obtain ⟨trip, hfind, hadult, hrest⟩ :=
    calculate_trip_price_ok trips coupons now tid adults children code uid r hok
  simp only [] at hrest
  obtain ⟨h1, h2, h3, h4, h5, h6⟩ := hrest
  obtain ⟨hap, hcp, hpctw⟩ := htrips trip (List.mem_of_find?_eq_some hfind)
  have hb : 0 ≤ (adults : ℚ) * trip.adult_price + (children : ℚ) * trip.child_price := by
    have ha : (1 : ℚ) ≤ (adults : ℚ) := by exact_mod_cast hadult
    have hc : (0 : ℚ) ≤ (children : ℚ) := by exact_mod_cast hchildren
    nlinarith
  obtain ⟨hg0, hgb⟩ :=
    tripGroupDiscount_bounds trip (adults + children)
      ((adults : ℚ) * trip.adult_price + (children : ℚ) * trip.child_price) hb hpctw
  have htot : 0 ≤ r.total_discount ∧
      r.total_discount ≤ (adults : ℚ) * trip.adult_price +
        (children : ℚ) * trip.child_price := by
    rcases h3 with ⟨c, hcfind, hval, hobj, hpromo, htd⟩ | ⟨_, _, htd⟩
    · obtain ⟨hcp0, hcp100⟩ := hcoupons c (List.mem_of_find?_eq_some hcfind)
      rw [htd]
      constructor
      · have hp0 : 0 ≤ ((adults : ℚ) * trip.adult_price +
            (children : ℚ) * trip.child_price -
            (tripGroupDiscount trip (adults + children)
              ((adults : ℚ) * trip.adult_price + (children : ℚ) * trip.child_price)).1) *
            c.discount_percentage / 100 := by
          apply div_nonneg _ (by norm_num)
          exact mul_nonneg (by linarith) (le_of_lt hcp0)
        linarith
      · have hrem : ((adults : ℚ) * trip.adult_price +
            (children : ℚ) * trip.child_price -
            (tripGroupDiscount trip (adults + children)
              ((adults : ℚ) * trip.adult_price + (children : ℚ) * trip.child_price)).1) *
            c.discount_percentage / 100 ≤
            (adults : ℚ) * trip.adult_price + (children : ℚ) * trip.child_price -
            (tripGroupDiscount trip (adults + children)
              ((adults : ℚ) * trip.adult_price + (children : ℚ) * trip.child_price)).1 := by
          rw [div_le_iff₀ (by norm_num : (0 : ℚ) < 100)]
          nlinarith
        linarith
    · rw [htd]
      exact ⟨hg0, hgb⟩
  obtain ⟨ht0, htb⟩ := htot
  have hfin : r.final_price = (adults : ℚ) * trip.adult_price +
      (children : ℚ) * trip.child_price - r.total_discount := by
    rw [h4, if_neg (by linarith)]
  refine ⟨by rw [hfin]; linarith, by rw [hfin, h1]; linarith, by rw [hfin, h1]; ring⟩

/-- C7 witness: the fixture booking (2 adults, 1 child, sane trip, valid
coupon) satisfies the bounds and the discount identity. -/
theorem C7_witness :
    0 ≤ rFix.final_price ∧ rFix.final_price ≤ rFix.discount_info.base_price ∧
      rFix.total_discount = rFix.discount_info.base_price - rFix.final_price :=
  C7_price_bounds [tripFix] [couponFix] 0 1 1 0 (some "SAVE10") none rFix
    (by
      intro t ht
      rw [List.mem_singleton] at ht
      subst ht
      refine ⟨by norm_num [tripFix], by norm_num [tripFix], ?_⟩
      intro pct hp
      rw [tripFix] at hp
      rw [Option.some.injEq] at hp
      omega)
    (by
      intro c hc
      rw [List.mem_singleton] at hc
      subst hc
      norm_num [couponFix])
    (by norm_num)
    (by
      norm_num [calculate_trip_price, tripFix, couponFix, rFix, tripGroupDiscount,
        validate_coupon, couponExpired, optIntTruthy, optStrTruthy, List.find?]
      rw [if_neg (by decide : ¬("SAVE10" = ""))]
      norm_num)

/-! ## C5 -/

/-- C5: every accepted `create_invoice` stores an authoritative amount
within ±1.0 of the submitted one (equivalently, a submitted amount more
than 1.0 away from the calculated price is rejected before any row is
written — an `.error` result carries no state change); the tolerance
check is exactly `|calculated − submitted| ≤ 1`; at the fixture, a
difference of 1.0 is accepted and 1.01 is rejected with a bad-request. -/
theorem C5_amount_tolerance :
    (∀ (db : DB) (now : ℚ) (gw : EasykashCreateResponse) (r1 r2 nid : Nat)
      (data : InvoiceCreate) (uid : Nat) (res : CreateOutcome),
      create_invoice db now gw r1 r2 nid data uid = .ok res →
      verify_amount_matches_calculation res.new_invoice.amount data.amount 1 = true) ∧
    (∀ c s : ℚ, verify_amount_matches_calculation c s 1 = true ↔ |c - s| ≤ 1) ∧
    (create_invoice dbFix 0 gwUnused 1234 5678 9 dataCash 7).isOk = true ∧
    create_invoice dbFix 0 gwUnused 1234 5678 9 { dataCash with amount := 9101/100 } 7 =
      .error ⟨400, "Amount mismatch detected. Please recalculate your booking."⟩ := by
  refine ⟨?_, ?_, ?_, ?_⟩
  · intro db now gw r1 r2 nid data uid res h
    unfold create_invoice at h
    split at h
    · exact absurd h (by simp)
    · simp only [] at h
      split at h
      · exact absurd h (by simp)
      · rename_i priceResult heq
        split at h
        · exact absurd h (by simp)
        · rename_i hv
          split at h
          · exact absurd h (by simp)
          · rename_i cref purl ekref heq2
            rw [Except.ok.injEq] at h
            subst h
            simp only [Bool.not_eq_false] at hv
            exact hv
  · intro c s
    unfold verify_amount_matches_calculation
    simp
  · norm_num [create_invoice, dbFix, dataCash, gwUnused,
      show strLower "trip" = "trip" from by decide,
      (by decide : ¬("cash" = "online")),
      optNatTruthy, optIntTruthy, optStrTruthy,
      calculate_trip_price, tripFix, tripGroupDiscount,
      verify_amount_matches_calculation, List.find?, Except.isOk, Except.toBool]
  · norm_num [create_invoice, dbFix, dataCash, gwUnused,
      show strLower "trip" = "trip" from by decide,
      (by decide : ¬("cash" = "online")),
      optNatTruthy, optIntTruthy, optStrTruthy,
      calculate_trip_price, tripFix, tripGroupDiscount,
      verify_amount_matches_calculation, List.find?]
    intro h
    rw [abs_of_nonneg (by norm_num : (0 : ℚ) ≤ 101 / 100)] at h
    norm_num at h

/-- C5 witness: the accepted fixture booking stores amount 90 against the
submitted 91, inside the tolerance. -/
theorem C5_witness :
    verify_amount_matches_calculation outcomeCash.new_invoice.amount dataCash.amount 1
      = true ∧
    (verify_amount_matches_calculation 90 91 1 = true ↔ |(90 : ℚ) - 91| ≤ 1) :=
  ⟨C5_amount_tolerance.1 dbFix 0 gwUnused 1234 5678 9 dataCash 7 outcomeCash
      (by
        norm_num [create_invoice, dbFix, dataCash, gwUnused, outcomeCash, invCash,
          show strLower "trip" = "trip" from by decide,
          (by decide : ¬("cash" = "online")),
          optNatTruthy, optIntTruthy, optStrTruthy,
          calculate_trip_price, tripFix, tripGroupDiscount,
          verify_amount_matches_calculation, List.find?]),
    C5_amount_tolerance.2.1 90 91⟩

/-! ## C3 -/

/-- A SHA-512 digest always starts with a byte (it has 64 of them). -/
theorem sha512Bytes_exists_cons (msg : List Nat) :
    ∃ b bs, SHA512.sha512Bytes msg = b :: bs := ⟨_, _, rfl⟩

/-- An HMAC-SHA512 byte digest is likewise non-empty. -/
theorem hmacSha512_exists_cons (key msg : List Nat) :
    ∃ b bs, SHA512.hmacSha512 key msg = b :: bs := ⟨_, _, rfl⟩

/-- Hex-encoding a non-empty byte string gives a non-empty string. -/
theorem bytesToHexString_ne_empty (b : Nat) (bs : List Nat) :
    SHA512.bytesToHexString (b :: bs) ≠ "" := by
  simp [SHA512.bytesToHexString, SHA512.byteToHex, String.ext_iff]

/-- An HMAC-SHA512 hex digest is never the empty string, so a supplied
signature equal to the expected digest survives the falsy check. -/
theorem hmacHex_ne_empty (key msg : String) : SHA512.hmacSha512Hex key msg ≠ "" := by
  obtain ⟨b, bs, h⟩ := hmacSha512_exists_cons (SHA512.utf8Bytes key) (SHA512.utf8Bytes msg)
  unfold SHA512.hmacSha512Hex
  rw [h]
  exact bytesToHexString_ne_empty b bs

/-- `verify_callback` only reads the signature field and the signed
concatenation. -/
theorem verify_callback_congr (secret : String) (p q : CallbackPayload)
    (hsig : p.signatureHash = q.signatureHash)
    (hcat : concatSignedFields p = concatSignedFields q) :
    verify_callback secret p = verify_callback secret q := by
  unfold verify_callback
  rw [hsig, hcat]

/-- A payload whose supplied signature equals the HMAC over its (possibly
defaulted) concatenation verifies successfully. -/
theorem verify_callback_matching (secret : String) (p : CallbackPayload)
    (hsec : secret ≠ "")
    (hsig : p.signatureHash =
      some (SHA512.hmacSha512Hex secret (concatSignedFields p))) :
    verify_callback secret p = true := by
  unfold verify_callback
  rw [if_neg hsec, hsig]
  simp only [if_neg (hmacHex_ne_empty secret (concatSignedFields p))]
  simp [compareDigest]

/-- C3 counterexample: a payload missing the `ProductCode` signing field
still verifies as authentic (for a matching signature), so signature
verification does not fail closed on missing required fields: the source
substitutes `""` for each missing field instead of rejecting. -/
theorem C3_counterexample :
    payloadMissingPC.ProductCode = none ∧
    verify_callback "testsecret" payloadMissingPC = true :=
  ⟨rfl, verify_callback_matching "testsecret" payloadMissingPC (by decide) rfl⟩

/-- C3 (amended): verification fails closed when the `signatureHash`
field is missing or empty, or the secret key is unset; a missing signing
field, however, does not make verification fail — the field is treated
exactly as if it were present with the empty-string value, for each of
the 7 signing fields. -/
theorem C3_missing_field_defaults :
    (∀ p, verify_callback "" p = false) ∧
    (∀ secret p, p.signatureHash = none → verify_callback secret p = false) ∧
    (∀ secret p, p.signatureHash = some "" → verify_callback secret p = false) ∧
    (∀ secret p, p.ProductCode = none →
      verify_callback secret p = verify_callback secret { p with ProductCode := some "" }) ∧
    (∀ secret p, p.Amount = none →
      verify_callback secret p = verify_callback secret { p with Amount := some "" }) ∧
    (∀ secret p, p.ProductType = none →
      verify_callback secret p = verify_callback secret { p with ProductType := some "" }) ∧
    (∀ secret p, p.PaymentMethod = none →
      verify_callback secret p = verify_callback secret { p with PaymentMethod := some "" }) ∧
    (∀ secret p, p.status = none →
      verify_callback secret p = verify_callback secret { p with status := some "" }) ∧
    (∀ secret p, p.easykashRef = none →
      verify_callback secret p = verify_callback secret { p with easykashRef := some "" }) ∧
    (∀ secret p, p.customerReference = none →
      verify_callback secret p = verify_callback secret
        { p with customerReference := some "" }) := by
  refine ⟨fun p => by unfold verify_callback; rw [if_pos rfl],
    fun secret p h => by unfold verify_callback; rw [h]; split <;> simp,
    fun secret p h => by unfold verify_callback; rw [h]; split <;> simp,
    ?_, ?_, ?_, ?_, ?_, ?_, ?_⟩ <;>
  · intro secret p h
    exact verify_callback_congr secret p _ rfl (by simp [concatSignedFields, h])

/-- C3 witness: a payload with no signature fails closed, and dropping
the `Amount` field is the same as signing the empty string for it. -/
theorem C3_witness :
    verify_callback "testsecret" { payloadMissingPC with signatureHash := none } = false ∧
    verify_callback "testsecret" { payloadMissingPC with Amount := none } =
      verify_callback "testsecret"
        { payloadMissingPC with Amount := none, ProductCode := some "" } := by
  constructor
  · exact C3_missing_field_defaults.2.1 "testsecret" _ rfl
  · exact C3_missing_field_defaults.2.2.2.1 "testsecret"
      { payloadMissingPC with Amount := none } rfl

/-! ## C9 -/

/-- C9 counterexample: on a `PENDING` invoice, an inquiry answering
`"Refunded"` makes reconciliation write `"REFUNDED"` — a status outside
the four terminal values — so the reconciliation path does not apply the
webhook's terminal-status mapping before committing. -/
theorem C9_counterexample :
    invBase.status = "PENDING" ∧
    (inquire_and_update_invoice invBase inqRefunded).invoice.status = "REFUNDED" ∧
    (inquire_and_update_invoice invBase inqRefunded).committed = true ∧
    "REFUNDED" ∉ VALID_CALLBACK_STATUSES := by
  decide

/-- C9 (amended): unlike webhook processing — which only ever writes a
status from `VALID_CALLBACK_STATUSES` (or leaves rows as they were) —
the reconciliation path applies no terminal-status filter: whenever the
inquiry is issued, returns no error and reports a non-empty status whose
upper-casing differs from the stored one, that upper-cased string is
written as-is. -/
theorem C9_no_mapping_on_inquiry :
    (∀ (invoice : Invoice) (resp : InquiryResponse) (s : String),
      invoice.status ∉ FINAL_STATUSES →
      optStrTruthy invoice.customer_reference = true →
      optStrTruthy resp.error = false →
      resp.status = some s → s ≠ "" → strUpper s ≠ invoice.status →
      (inquire_and_update_invoice invoice resp).invoice.status = strUpper s) ∧
    (∀ (invoices : List Invoice) (payload : CallbackPayload) (r : CallbackOutcome),
      process_payment_callback invoices payload = .ok r →
      ∀ inv2 ∈ r.invoices, inv2 ∈ invoices ∨ inv2.status ∈ VALID_CALLBACK_STATUSES) := by
  constructor
  · intro invoice resp s hfin href herr hs hsne hsup
    unfold inquire_and_update_invoice
    rw [if_neg (by simp [hfin, href]), if_neg (by simp [herr]), hs]
    simp only [ne_eq, hsne, not_false_iff, ite_false, hsup, ite_true, if_neg, if_pos]
    split <;> rfl
  · intro invoices payload r hok inv2 hmem
    unfold process_payment_callback at hok
    split at hok
    · exact absurd hok (by simp)
    · rename_i invoice heq
      split at hok
      · rw [Except.ok.injEq] at hok
        subst hok
        exact Or.inl hmem
      · simp only [] at hok
        split at hok
        · rename_i hval
          split at hok <;>
          · rw [Except.ok.injEq] at hok
            subst hok
            simp only [List.mem_map] at hmem
            obtain ⟨a, ha, rfl⟩ := hmem
            by_cases hid : (a.id == invoice.id) = true
            · rw [if_pos hid]; exact Or.inr hval
            · rw [if_neg hid]; exact Or.inl ha
        · rw [Except.ok.injEq] at hok
          subst hok
          exact Or.inl hmem

/-- C9 witness: reconciliation writes the unfiltered upper-cased
`"Refunded"`, and a successful webhook run only ever leaves statuses
that were already present or come from the terminal set. -/
theorem C9_witness :
    (inquire_and_update_invoice invBase inqRefunded).invoice.status =
      strUpper "Refunded" ∧
    (∀ inv2 ∈ (CallbackOutcome.mk [invFailed] none false false).invoices,
      inv2 ∈ [invFailed] ∨ inv2.status ∈ VALID_CALLBACK_STATUSES) :=
  ⟨C9_no_mapping_on_inquiry.1 invBase inqRefunded "Refunded" (by decide) (by decide)
      (by decide) rfl (by decide) (by decide),
    fun inv2 hmem => Or.inl hmem⟩

end Globaldivers

